import Mathlib

/-!
Verification of the go-postgres startup gate (cmd/postgres/main.go and the
two build-tagged implementations of platform.CheckRoot).

The embedding is shallow:

* `Platform.Posix.CheckRoot` embeds the `//go:build !windows` implementation.
  The process identity read from the operating system (`os.Getuid`,
  `os.Geteuid`) is passed explicitly as a `PosixEnv`.  A `none` result is the
  Go `nil` error; `some msg` is an error whose `Error()` string is `msg`.
* `Platform.Windows.CheckRoot` embeds the `//go:build windows` implementation.
  The three operating-system calls (`OpenProcessToken`, `CreateWellKnownSid`,
  `Token.IsMember`) are passed explicitly as a `WinEnv` whose fields hold each
  call's result (`Except.error cause` for a failing call).
* `Main.execute` embeds the dispatch performed by `main`:
  cobra resolves the first positional argument against the registered
  subcommands (`check`, `boot`, `describe-config`, `single`, plus the implicit
  `help` command), rejecting an unrecognized subcommand before any command
  hook runs; the resolved command then runs `PersistentPreRunE` (which skips
  the privilege check exactly for command names `describe-config` and `help`)
  followed by the command's `Run`/`RunE` body; `main` maps a returned error to
  exit code 1, and a Go panic terminates the process with exit code 2.
  Flag parsing (`--help`, `--version`) is outside the model: every claim is
  about positional invocations.  The two functions imported by `main.go`,
  `platform.CheckRoot` and `postmaster.PostmasterMain`, are parameters of
  `Main.execute`, mirroring the build-time selection of the platform
  implementation and the external supervisor entry point.
  The observable behaviour (which hooks ran, what was printed, how the
  process ended) is returned as an `Outcome` together with a trace of
  `Event`s in execution order.
-/

namespace Platform

namespace Posix

/-- The POSIX process identity as read by `os.Getuid` / `os.Geteuid`
(`//go:build !windows` file, package `platform`). -/
structure PosixEnv where
  uid : Int
  euid : Int
deriving DecidableEq, Repr

/-- The fixed multi-line message of the `errors.New` raw-string literal used
when the effective user id is 0. -/
def rootErrorMsg : String :=
  "\"root\" execution of the PostgreSQL server is not permitted.\nThe server must be started under an unprivileged user ID to prevent\npossible system security compromise.  See the documentation for\nmore information on how to properly start the server."

/-- The identity-mismatch message produced by
`fmt.Errorf("%s: real and effective user IDs must match", progname)`. -/
def mismatchMsg (progname : String) : String :=
  progname ++ ": real and effective user IDs must match"

/-- `func CheckRoot(progname string) error` from the `!windows` build of
package `platform`: fail if `os.Geteuid() == 0`, else fail if
`os.Getuid() != os.Geteuid()`, else succeed. -/
def CheckRoot (env : PosixEnv) (progname : String) : Option String :=
  if env.euid = 0 then
    some rootErrorMsg
  else if env.uid ≠ env.euid then
    some (mismatchMsg progname)
  else
    none

end Posix

namespace Windows

/-- Results of the three Windows API calls made by the `windows` build of
`CheckRoot`, in call order: `windows.OpenProcessToken`,
`windows.CreateWellKnownSid(windows.WinBuiltinAdministratorsSid)`, and
`token.IsMember(adminSid)`.  `Except.error cause` models a call returning a
non-nil error whose `Error()` string is `cause`. -/
structure WinEnv where
  openProcessToken : Except String Unit
  createWellKnownSid : Except String Unit
  isMember : Except String Bool
deriving Repr

/-- The fixed multi-line message of the `errors.New` raw-string literal used
when the token is a member of the built-in administrators group. -/
def adminErrorMsg : String :=
  "Execution of PostgreSQL by a user with administrative permissions is not\n permitted.\n The server must be started under an unprivileged user ID to prevent\n possible system security compromises.  See the documentation for\n more information on how to properly start the server"

/-- `func CheckRoot(_ string) error` from the `windows` build of package
`platform`.  The program-name argument is ignored, as in the source.  Each
failing API call is wrapped with its own `fmt.Errorf` prefix and returned
immediately; a member token yields the fixed administrator message;
otherwise the check succeeds. -/
def CheckRoot (env : WinEnv) (_ : String) : Option String :=
  match env.openProcessToken with
  | .error cause => some ("failed to check admin privileges: " ++ cause)
  | .ok _ =>
    match env.createWellKnownSid with
    | .error cause => some ("failed to create admin SID: " ++ cause)
    | .ok _ =>
      match env.isMember with
      | .error cause => some ("failed to check admin membership: " ++ cause)
      | .ok true => some adminErrorMsg
      | .ok false => none

end Windows

end Platform

namespace Main

/-- The commands registered on `rootCmd` in `main.go`, the root command
itself, and cobra's implicit `help` command. -/
inductive Cmd where
  | root
  | check
  | boot
  | describeConfig
  | single
  | help
deriving DecidableEq, Repr

/-- `cobra.Command.Name()` for each command: the first word of its `Use`
line (`"postgres"` for the root command). -/
def cmdName : Cmd → String
  | .root => "postgres"
  | .check => "check"
  | .boot => "boot"
  | .describeConfig => "describe-config"
  | .single => "single"
  | .help => "help"

/-- The subcommand registry: the four `rootCmd.AddCommand` calls in
`main.go` plus cobra's implicit `help` command, matched case-sensitively. -/
def subcommandOf : String → Option Cmd
  | "check" => some Cmd.check
  | "boot" => some Cmd.boot
  | "describe-config" => some Cmd.describeConfig
  | "single" => some Cmd.single
  | "help" => some Cmd.help
  | _ => none

/-- Observable events of one dispatch, in execution order. -/
inductive Event where
  /-- `platform.CheckRoot(progname)` was called by `PersistentPreRunE`. -/
  | checkRootCalled
  /-- The named command's `Run`/`RunE` body began executing. -/
  | enteredMode (c : Cmd)
  /-- `postmaster.PostmasterMain(args)` was invoked. -/
  | postmasterMain (args : List String)
  /-- A line written to standard output by `fmt.Println`. -/
  | printLine (s : String)
  /-- A line written to standard error. -/
  | printErr (s : String)
  /-- The implicit `help` command printed the usage text. -/
  | printedHelp
deriving DecidableEq, Repr

/-- How the process ended: `os.Exit(code)` (or a normal return from `main`,
which is `exited 0`), or a Go runtime panic carrying the panic message. -/
inductive Outcome where
  | exited (code : Nat)
  | panicked (msg : String)
deriving DecidableEq, Repr

/-- The process exit status for each outcome: the explicit code for
`os.Exit`, and 2 for a Go panic (the Go runtime's exit status for an
unrecovered panic). -/
def exitCodeOf : Outcome → Nat
  | .exited code => code
  | .panicked _ => 2

/-- cobra's `Find` on the argument list: no positional argument selects the
root command; a first positional argument naming a registered subcommand
selects it, stripping the name; any other first positional argument is the
`unknown command` parse error (cobra's `legacyArgs` check for a root command
that has subcommands), reported before any command hook runs. -/
def find (args : List String) : Except String (Cmd × List String) :=
  match args with
  | [] => Except.ok (Cmd.root, [])
  | a :: rest =>
    match subcommandOf a with
    | some c => Except.ok (c, rest)
    | none =>
      Except.error ("unknown command \x22" ++ a ++ "\x22 for \x22postgres\x22")

/-- Whether `PersistentPreRunE` skips the privilege check for this command:
`cmd.Name() == "describe-config" || cmd.Name() == "help"`. -/
def exemptFromCheck (c : Cmd) : Bool :=
  cmdName c = "describe-config" ∨ cmdName c = "help"

/-- The fixed line printed by the `describe-config` command's `Run` body. -/
def gucInfoLine : String :=
  "GucInfoMain: Listing all configuration parameters..."

/-- The panic message of each reserved, unimplemented command. -/
def notImplementedMsg : Cmd → String
  | .check => "DISPATCH_CHECK: Not implemented yet"
  | .boot => "DISPATCH_BOOT: Not implemented yet"
  | .single => "DISPATCH_SINGLE: Not implemented yet"
  | _ => ""

/-- The `Run`/`RunE` body of each command, given the externally supplied
`postmaster.PostmasterMain` and the mode-stripped arguments: the root
command's `RunE` returns `PostmasterMain(args)`; `check`, `boot` and
`single` panic with their tagged message; `describe-config` prints its fixed
line; `help` prints the usage text. -/
def runBody (postmasterMain : List String → Option String) (c : Cmd)
    (args : List String) : Outcome × List Event :=
  match c with
  | .root =>
    match postmasterMain args with
    | some e =>
      (Outcome.exited 1,
       [Event.enteredMode Cmd.root, Event.postmasterMain args,
        Event.printErr ("Error: " ++ e)])
    | none =>
      (Outcome.exited 0,
       [Event.enteredMode Cmd.root, Event.postmasterMain args])
  | .check =>
    (Outcome.panicked (notImplementedMsg Cmd.check),
     [Event.enteredMode Cmd.check])
  | .boot =>
    (Outcome.panicked (notImplementedMsg Cmd.boot),
     [Event.enteredMode Cmd.boot])
  | .describeConfig =>
    (Outcome.exited 0,
     [Event.enteredMode Cmd.describeConfig, Event.printLine gucInfoLine])
  | .single =>
    (Outcome.panicked (notImplementedMsg Cmd.single),
     [Event.enteredMode Cmd.single])
  | .help =>
    (Outcome.exited 0, [Event.enteredMode Cmd.help, Event.printedHelp])

/-- One dispatch, as performed by `main`: resolve the command (a parse error
is printed with cobra's `Error:` prefix and a usage hint, and `main` exits
1); run `PersistentPreRunE` (privilege check unless exempt; a privilege
error is printed and `main` exits 1 without running the command body); then
run the command body. -/
def execute (checkRoot : String → Option String)
    (postmasterMain : List String → Option String)
    (progname : String) (args : List String) : Outcome × List Event :=
  match find args with
  | .error e =>
    (Outcome.exited 1,
     [Event.printErr ("Error: " ++ e),
      Event.printErr "Run \x27postgres --help\x27 for usage."])
  | .ok (c, rest) =>
    if exemptFromCheck c then
      runBody postmasterMain c rest
    else
      match checkRoot progname with
      | some e =>
        (Outcome.exited 1,
         [Event.checkRootCalled, Event.printErr ("Error: " ++ e)])
      | none =>
        let r := runBody postmasterMain c rest
        (r.1, Event.checkRootCalled :: r.2)

/-- `true` exactly on `postmasterMain` invocation events. -/
def isPostmasterEvent : Event → Bool
  | .postmasterMain _ => true
  | _ => false

/-- `true` exactly on mode-entry events. -/
def isEnteredModeEvent : Event → Bool
  | .enteredMode _ => true
  | _ => false

end Main

/-! ## Claim theorems -/

/-- Claim C1: for every process identity with effective uid 0 (POSIX) or an
administrator token (token model, with the three API calls succeeding), and
every program name including the empty string, `CheckRoot` fails with the
fixed superuser/administrator message; the outcome depends neither on the
program name nor on the real uid. -/
theorem checkRoot_superuser_always_fails :
    (∀ (uid : Int) (progname : String),
      Platform.Posix.CheckRoot ⟨uid, 0⟩ progname
        = some Platform.Posix.rootErrorMsg) ∧
    (∀ (env : Platform.Windows.WinEnv) (progname : String),
      env.openProcessToken = Except.ok () →
      env.createWellKnownSid = Except.ok () →
      env.isMember = Except.ok true →
      Platform.Windows.CheckRoot env progname
        = some Platform.Windows.adminErrorMsg) := by
  constructor
  · intro uid progname
    simp [Platform.Posix.CheckRoot]
  · intro env progname h1 h2 h3
    simp [Platform.Windows.CheckRoot, h1, h2, h3]

/-- Closed instance of `checkRoot_superuser_always_fails` at concrete
identities and the empty program name. -/
theorem checkRoot_superuser_always_fails_witness :
    Platform.Posix.CheckRoot ⟨5, 0⟩ "" = some Platform.Posix.rootErrorMsg ∧
    Platform.Windows.CheckRoot
        ⟨Except.ok (), Except.ok (), Except.ok true⟩ ""
      = some Platform.Windows.adminErrorMsg :=
  ⟨checkRoot_superuser_always_fails.1 5 "",
   checkRoot_superuser_always_fails.2
     ⟨Except.ok (), Except.ok (), Except.ok true⟩ "" rfl rfl rfl⟩

/-- Claim C5: for every POSIX identity with real uid different from
effective uid and effective uid non-zero, and every program name,
`CheckRoot` fails with the identity-mismatch error, whose message contains
the program name (it begins with it). -/
theorem checkRoot_mismatch_fails (uid euid : Int) (progname : String)
    (hne : uid ≠ euid) (hz : euid ≠ 0) :
    Platform.Posix.CheckRoot ⟨uid, euid⟩ progname
      = some (progname ++ ": real and effective user IDs must match") ∧
    ∃ rest, progname ++ ": real and effective user IDs must match"
      = progname ++ rest := by
  refine ⟨?_, ⟨": real and effective user IDs must match", rfl⟩⟩
  simp [Platform.Posix.CheckRoot, Platform.Posix.mismatchMsg, hz, hne]

/-- Closed instance of `checkRoot_mismatch_fails` at uid 1000, effective
uid 1001, program name `postgres`. -/
theorem checkRoot_mismatch_fails_witness :
    Platform.Posix.CheckRoot ⟨1000, 1001⟩ "postgres"
      = some ("postgres" ++ ": real and effective user IDs must match") ∧
    ∃ rest, "postgres" ++ ": real and effective user IDs must match"
      = "postgres" ++ rest :=
  checkRoot_mismatch_fails 1000 1001 "postgres" (by decide) (by decide)

/-- Claim C6: for every POSIX identity with real uid equal to effective uid
and both non-zero, and every program name, `CheckRoot` succeeds. -/
theorem checkRoot_matching_nonroot_succeeds (u : Int) (progname : String)
    (hz : u ≠ 0) :
    Platform.Posix.CheckRoot ⟨u, u⟩ progname = none := by
  simp [Platform.Posix.CheckRoot, hz]

/-- Closed instance of `checkRoot_matching_nonroot_succeeds` at uid 1000. -/
theorem checkRoot_matching_nonroot_succeeds_witness :
    Platform.Posix.CheckRoot ⟨1000, 1000⟩ "postgres" = none :=
  checkRoot_matching_nonroot_succeeds 1000 "postgres" (by decide)

/-- Claim C7: on the token model, a failure of the token-open call, the SID
resolution, or the membership test makes `CheckRoot` return the matching
specific error, and whenever any of the three calls fails the check never
returns success (fail closed). -/
theorem checkRoot_windows_fails_closed (env : Platform.Windows.WinEnv)
    (progname : String) :
    (∀ c, env.openProcessToken = Except.error c →
      Platform.Windows.CheckRoot env progname
        = some ("failed to check admin privileges: " ++ c)) ∧
    (∀ c, env.openProcessToken = Except.ok () →
      env.createWellKnownSid = Except.error c →
      Platform.Windows.CheckRoot env progname
        = some ("failed to create admin SID: " ++ c)) ∧
    (∀ c, env.openProcessToken = Except.ok () →
      env.createWellKnownSid = Except.ok () →
      env.isMember = Except.error c →
      Platform.Windows.CheckRoot env progname
        = some ("failed to check admin membership: " ++ c)) ∧
    (((∃ c, env.openProcessToken = Except.error c) ∨
      (∃ c, env.createWellKnownSid = Except.error c) ∨
      (∃ c, env.isMember = Except.error c)) →
      Platform.Windows.CheckRoot env progname ≠ none) := by
  refine ⟨?_, ?_, ?_, ?_⟩
  · intro c h1
    simp [Platform.Windows.CheckRoot, h1]
  · intro c h1 h2
    simp [Platform.Windows.CheckRoot, h1, h2]
  · intro c h1 h2 h3
    simp [Platform.Windows.CheckRoot, h1, h2, h3]
  · intro hfail
    unfold Platform.Windows.CheckRoot
    rcases henv : env.openProcessToken with c | u
    · simp
    · rcases hsid : env.createWellKnownSid with c | u'
      · simp
      · rcases hmem : env.isMember with c | b
        · simp
        · exfalso
          rcases hfail with ⟨c, hc⟩ | ⟨c, hc⟩ | ⟨c, hc⟩
          · rw [henv] at hc
            exact Except.noConfusion hc
          · rw [hsid] at hc
            exact Except.noConfusion hc
          · rw [hmem] at hc
            exact Except.noConfusion hc

/-- Closed instance of `checkRoot_windows_fails_closed`: each of the three
simulated call failures yields its specific error, and a token-open failure
is not success. -/
theorem checkRoot_windows_fails_closed_witness :
    Platform.Windows.CheckRoot
        ⟨Except.error "x", Except.ok (), Except.ok false⟩ ""
      = some ("failed to check admin privileges: " ++ "x") ∧
    Platform.Windows.CheckRoot
        ⟨Except.ok (), Except.error "y", Except.ok false⟩ ""
      = some ("failed to create admin SID: " ++ "y") ∧
    Platform.Windows.CheckRoot
        ⟨Except.ok (), Except.ok (), Except.error "z"⟩ ""
      = some ("failed to check admin membership: " ++ "z") ∧
    Platform.Windows.CheckRoot
        ⟨Except.error "x", Except.ok (), Except.ok false⟩ "" ≠ none :=
  ⟨(checkRoot_windows_fails_closed
      ⟨Except.error "x", Except.ok (), Except.ok false⟩ "").1 "x" rfl,
   (checkRoot_windows_fails_closed
      ⟨Except.ok (), Except.error "y", Except.ok false⟩ "").2.1 "y" rfl rfl,
   (checkRoot_windows_fails_closed
      ⟨Except.ok (), Except.ok (), Except.error "z"⟩ "").2.2.1 "z" rfl rfl rfl,
   (checkRoot_windows_fails_closed
      ⟨Except.error "x", Except.ok (), Except.ok false⟩ "").2.2.2
     (Or.inl ⟨"x", rfl⟩)⟩

/-- Claim C2: for any selected command outside the exemption set, a failing
privilege check makes the dispatch print the carried error message and
return exit code 1 without entering the command body; in particular boot,
check and single under a POSIX superuser identity yield the privilege
error, not the not-implemented panic. -/
theorem dispatch_privilege_failure_blocks_mode :
    (∀ (cr : String → Option String) (pm : List String → Option String)
       (progname : String) (args : List String) (c : Main.Cmd)
       (rest : List String) (e : String),
      Main.find args = Except.ok (c, rest) →
      Main.exemptFromCheck c = false →
      cr progname = some e →
      Main.execute cr pm progname args
        = (Main.Outcome.exited 1,
           [Main.Event.checkRootCalled,
            Main.Event.printErr ("Error: " ++ e)])) ∧
    (∀ (uid : Int) (pm : List String → Option String) (progname : String)
       (name : String),
      name ∈ ["boot", "check", "single"] →
      Main.execute (Platform.Posix.CheckRoot ⟨uid, 0⟩) pm progname [name]
        = (Main.Outcome.exited 1,
           [Main.Event.checkRootCalled,
            Main.Event.printErr
              ("Error: " ++ Platform.Posix.rootErrorMsg)])) := by
  constructor
  · intro cr pm progname args c rest e hfind hex hcr
    unfold Main.execute
    rw [hfind]
    simp [hex, hcr]
  · intro uid pm progname name hmem
    have hcr : Platform.Posix.CheckRoot ⟨uid, 0⟩ progname
        = some Platform.Posix.rootErrorMsg := by
      simp [Platform.Posix.CheckRoot]
    fin_cases hmem <;>
      simp [Main.execute, Main.find, Main.subcommandOf,
        Main.exemptFromCheck, Main.cmdName, hcr]

/-- Closed instance of `dispatch_privilege_failure_blocks_mode`: a failing
check blocks the root command, and `boot` under uid 0 gets the privilege
error. -/
theorem dispatch_privilege_failure_blocks_mode_witness :
    Main.execute (fun _ => some "denied") (fun _ => none) "postgres" []
      = (Main.Outcome.exited 1,
         [Main.Event.checkRootCalled,
          Main.Event.printErr ("Error: " ++ "denied")]) ∧
    Main.execute (Platform.Posix.CheckRoot ⟨0, 0⟩) (fun _ => none)
        "postgres" ["boot"]
      = (Main.Outcome.exited 1,
         [Main.Event.checkRootCalled,
          Main.Event.printErr ("Error: " ++ Platform.Posix.rootErrorMsg)]) :=
  ⟨dispatch_privilege_failure_blocks_mode.1 (fun _ => some "denied")
     (fun _ => none) "postgres" [] Main.Cmd.root [] "denied" rfl rfl rfl,
   dispatch_privilege_failure_blocks_mode.2 0 (fun _ => none) "postgres"
     "boot" (by simp)⟩

/-- Claim C3: dispatching boot, check, or single under a non-privileged
POSIX identity ends in the tagged not-implemented panic: the panic message
names the mode, the resulting exit status 2 is non-zero, the three tags are
pairwise distinct, and the command body is entered (no silent no-op). -/
theorem reserved_modes_not_implemented (uid : Int)
    (pm : List String → Option String) (progname : String)
    (extra : List String) (hz : uid ≠ 0) :
    (Main.execute (Platform.Posix.CheckRoot ⟨uid, uid⟩) pm progname
        ("check" :: extra)
      = (Main.Outcome.panicked "DISPATCH_CHECK: Not implemented yet",
         [Main.Event.checkRootCalled,
          Main.Event.enteredMode Main.Cmd.check])) ∧
    (Main.execute (Platform.Posix.CheckRoot ⟨uid, uid⟩) pm progname
        ("boot" :: extra)
      = (Main.Outcome.panicked "DISPATCH_BOOT: Not implemented yet",
         [Main.Event.checkRootCalled,
          Main.Event.enteredMode Main.Cmd.boot])) ∧
    (Main.execute (Platform.Posix.CheckRoot ⟨uid, uid⟩) pm progname
        ("single" :: extra)
      = (Main.Outcome.panicked "DISPATCH_SINGLE: Not implemented yet",
         [Main.Event.checkRootCalled,
          Main.Event.enteredMode Main.Cmd.single])) ∧
    (∀ m, Main.exitCodeOf (Main.Outcome.panicked m) ≠ 0) ∧
    (Main.notImplementedMsg Main.Cmd.check ≠ Main.notImplementedMsg Main.Cmd.boot ∧
     Main.notImplementedMsg Main.Cmd.check ≠ Main.notImplementedMsg Main.Cmd.single ∧
     Main.notImplementedMsg Main.Cmd.boot ≠ Main.notImplementedMsg Main.Cmd.single) := by
  have hcr : Platform.Posix.CheckRoot ⟨uid, uid⟩ progname = none := by
    simp [Platform.Posix.CheckRoot, hz]
  refine ⟨?_, ?_, ?_, ?_, by decide⟩
  · simp [Main.execute, Main.find, Main.subcommandOf, Main.exemptFromCheck,
      Main.cmdName, Main.runBody, Main.notImplementedMsg, hcr]
  · simp [Main.execute, Main.find, Main.subcommandOf, Main.exemptFromCheck,
      Main.cmdName, Main.runBody, Main.notImplementedMsg, hcr]
  · simp [Main.execute, Main.find, Main.subcommandOf, Main.exemptFromCheck,
      Main.cmdName, Main.runBody, Main.notImplementedMsg, hcr]
  · intro m
    simp [Main.exitCodeOf]

/-- Closed instance of `reserved_modes_not_implemented` at uid 1000 with no
extra arguments. -/
theorem reserved_modes_not_implemented_witness :
    Main.execute (Platform.Posix.CheckRoot ⟨1000, 1000⟩) (fun _ => none)
        "postgres" ("check" :: [])
      = (Main.Outcome.panicked "DISPATCH_CHECK: Not implemented yet",
         [Main.Event.checkRootCalled,
          Main.Event.enteredMode Main.Cmd.check]) ∧
    Main.exitCodeOf
        (Main.Outcome.panicked "DISPATCH_CHECK: Not implemented yet") ≠ 0 :=
  ⟨(reserved_modes_not_implemented 1000 (fun _ => none) "postgres" []
      (by decide)).1,
   (reserved_modes_not_implemented 1000 (fun _ => none) "postgres" []
      (by decide)).2.2.2.1 "DISPATCH_CHECK: Not implemented yet"⟩

/-- Claim C4: dispatching describe-config succeeds for every privilege
checker (hence for every identity, a superuser one included): the check is
skipped, the configuration line is printed, and the exit code is 0. -/
theorem describe_config_always_succeeds (cr : String → Option String)
    (pm : List String → Option String) (progname : String)
    (rest : List String) :
    Main.execute cr pm progname ("describe-config" :: rest)
      = (Main.Outcome.exited 0,
         [Main.Event.enteredMode Main.Cmd.describeConfig,
          Main.Event.printLine Main.gucInfoLine]) := by
  rfl

/-- Claim C8: with no subcommand and a passing privilege check, the
dispatch enters the root mode and invokes `PostmasterMain` exactly once,
with the empty mode-stripped argument list. -/
theorem default_dispatch_runs_postmaster_once (cr : String → Option String)
    (pm : List String → Option String) (progname : String)
    (h : cr progname = none) :
    (Main.execute cr pm progname []).2
      = Main.Event.checkRootCalled :: Main.Event.enteredMode Main.Cmd.root ::
        Main.Event.postmasterMain [] ::
        (match pm [] with
         | some e => [Main.Event.printErr ("Error: " ++ e)]
         | none => []) ∧
    (Main.execute cr pm progname []).2.countP Main.isPostmasterEvent = 1 := by
  cases hpm : pm [] with
  | some e =>
    simp [Main.execute, Main.find, Main.exemptFromCheck, Main.cmdName,
      Main.runBody, Main.isPostmasterEvent, h, hpm, List.countP_cons]
  | none =>
    simp [Main.execute, Main.find, Main.exemptFromCheck, Main.cmdName,
      Main.runBody, Main.isPostmasterEvent, h, hpm, List.countP_cons]

/-- Closed instance of `default_dispatch_runs_postmaster_once` with an
always-passing checker and a successful supervisor. -/
theorem default_dispatch_runs_postmaster_once_witness :
    (Main.execute (fun _ => none) (fun _ => none) "postgres" []).2
      = Main.Event.checkRootCalled :: Main.Event.enteredMode Main.Cmd.root ::
        Main.Event.postmasterMain [] ::
        (match (fun (_ : List String) => (none : Option String)) [] with
         | some e => [Main.Event.printErr ("Error: " ++ e)]
         | none => []) ∧
    (Main.execute (fun _ => none) (fun _ => none) "postgres" []).2.countP
        Main.isPostmasterEvent = 1 :=
  default_dispatch_runs_postmaster_once (fun _ => none) (fun _ => none)
    "postgres" rfl

/-- Claim C9: a first positional argument outside the registry (and not a
flag) is an unknown-command parse error: exit code 1 after the two
diagnostic lines, the privilege checker is never called, and no command
body is entered. -/
theorem unknown_subcommand_parse_error (cr : String → Option String)
    (pm : List String → Option String) (progname : String) (name : String)
    (rest : List String) (hname : Main.subcommandOf name = none)
    (_hflag : name.data.head? ≠ some '-') :
    Main.execute cr pm progname (name :: rest)
      = (Main.Outcome.exited 1,
         [Main.Event.printErr
            ("Error: " ++ ("unknown command \x22" ++ name
              ++ "\x22 for \x22postgres\x22")),
          Main.Event.printErr "Run \x27postgres --help\x27 for usage."]) ∧
    Main.Event.checkRootCalled ∉ (Main.execute cr pm progname (name :: rest)).2 ∧
    (Main.execute cr pm progname (name :: rest)).2.countP
        Main.isEnteredModeEvent = 0 := by
  have hres : Main.execute cr pm progname (name :: rest)
      = (Main.Outcome.exited 1,
         [Main.Event.printErr
            ("Error: " ++ ("unknown command \x22" ++ name
              ++ "\x22 for \x22postgres\x22")),
          Main.Event.printErr "Run \x27postgres --help\x27 for usage."]) := by
    simp [Main.execute, Main.find, hname]
  refine ⟨hres, ?_, ?_⟩
  · rw [hres]
    simp
  · rw [hres]
    simp [Main.isEnteredModeEvent, List.countP_cons]

/-- Closed instance of `unknown_subcommand_parse_error` at the subcommand
`frobnicate`. -/
theorem unknown_subcommand_parse_error_witness :
    Main.execute (fun _ => none) (fun _ => none) "postgres"
        ("frobnicate" :: [])
      = (Main.Outcome.exited 1,
         [Main.Event.printErr
            ("Error: " ++ ("unknown command \x22" ++ "frobnicate"
              ++ "\x22 for \x22postgres\x22")),
          Main.Event.printErr "Run \x27postgres --help\x27 for usage."]) ∧
    Main.Event.checkRootCalled
      ∉ (Main.execute (fun _ => none) (fun _ => none) "postgres"
          ("frobnicate" :: [])).2 ∧
    (Main.execute (fun _ => none) (fun _ => none) "postgres"
        ("frobnicate" :: [])).2.countP Main.isEnteredModeEvent = 0 :=
  unknown_subcommand_parse_error (fun _ => none) (fun _ => none) "postgres"
    "frobnicate" [] rfl (by decide)

/-- Claim C10: the describe-config entry point is a constant action: its
result neither depends on the supplied supervisor nor on its arguments, and
it always prints exactly the fixed configuration line and succeeds. -/
theorem describe_config_run_constant (pm pm' : List String → Option String)
    (args args' : List String) :
    Main.runBody pm Main.Cmd.describeConfig args
      = Main.runBody pm' Main.Cmd.describeConfig args' ∧
    Main.runBody pm Main.Cmd.describeConfig args
      = (Main.Outcome.exited 0,
         [Main.Event.enteredMode Main.Cmd.describeConfig,
          Main.Event.printLine
            "GucInfoMain: Listing all configuration parameters..."]) :=
  ⟨rfl, rfl⟩
